import Mathlib

set_option maxRecDepth 10000

/-!
Verification of the CLI11 Timer header (src/include/CLI/Timer.hpp).

Shallow embedding conventions:
* C++ `double` values are modelled as rationals (ℚ).  The claims under
  scrutiny concern branch selection on thresholds, string assembly and
  loop/iteration counts, all of which are preserved by this modelling;
  none hinges on binary rounding of a particular double.
* The monotonic clock is modelled as a function `now : ℕ → ℚ`: the k-th
  call to `clock::now()` during an operation returns `now k` (seconds).
* The C library call `snprintf(buffer, 50, "%.5g", x)` is modelled by
  `fmt5`, a rational re-implementation of the %g conversion with
  precision 5 (5 significant digits, fixed or scientific notation,
  trailing zeros stripped, at least two exponent digits).
* `const` member functions of `Timer` cannot mutate the object; they are
  embedded as plain functions out of `TimerState`.  The only member that
  assigns to a field is `time_it`, embedded as returning the new state.
-/

namespace CLI

/-- Drops the trailing '0' characters of a digit list (the %g conversion
removes trailing zeros from the fractional part). -/
def stripTrailingZeros (l : List Char) : List Char :=
  (l.reverse.dropWhile (fun c => c == '0')).reverse

/-- Decimal exponent of a positive rational: the unique e with
10 ^ e ≤ x < 10 ^ (e + 1). -/
def decExp (x : ℚ) : ℤ :=
  if 1 ≤ x then (Nat.log 10 ⌊x⌋.toNat : ℤ)
  else
    let e := Nat.log 10 ⌊1 / x⌋.toNat
    if x * (10 : ℚ) ^ e = 1 then -(e : ℤ) else -(e : ℤ) - 1

/-- Model of snprintf with format "%.5g": renders x with 5 significant
digits, choosing fixed or scientific notation as the C %g conversion
does (scientific when the decimal exponent is below -4 or at least the
precision 5), stripping trailing fractional zeros, and printing the
exponent with a sign and at least two digits.  Halfway cases are rounded
up; the C library rounds the binary double, which the claims never
exercise at a decimal tie. -/
def fmt5 (x : ℚ) : String :=
  if x = 0 then "0" else
  let sign := if x < 0 then "-" else ""
  let a := |x|
  let e0 := decExp a
  let m0 := round (a * (10 : ℚ) ^ ((4 : ℤ) - e0))
  let m := if m0 = 100000 then (10000 : ℤ) else m0
  let e := if m0 = 100000 then e0 + 1 else e0
  let ds := (toString m.toNat).toList
  if e < -4 ∨ 5 ≤ e then
    let tail := stripTrailingZeros ds.tail
    let mant := String.mk (ds.take 1) ++
      (if tail.isEmpty then "" else "." ++ String.mk tail)
    let esign := if e < 0 then "-" else "+"
    let eabs := e.natAbs
    let estr := if eabs < 10 then "0" ++ toString eabs else toString eabs
    sign ++ mant ++ "e" ++ esign ++ estr
  else if 0 ≤ e then
    let k := e.toNat + 1
    let intPart := String.mk (ds.take k)
    let frac := stripTrailingZeros (ds.drop k)
    sign ++ intPart ++ (if frac.isEmpty then "" else "." ++ String.mk frac)
  else
    let z := String.mk (List.replicate (e.natAbs - 1) '0')
    sign ++ "0." ++ z ++ String.mk (stripTrailingZeros ds)

namespace Timer

/-- Embedding of the local lambda print_it in Timer::make_time_str:
formats x with %.5g and appends a space and the unit string. -/
def print_it (x : ℚ) (unit : String) : String :=
  fmt5 x ++ " " ++ unit

/-- Embedding of Timer::make_time_str(double): picks the unit by the
cascade of strict comparisons in the source (time < .000001 → ns,
else time < .001 → us, else time < 1 → ms, else s) and scales the
value accordingly before formatting. -/
def make_time_str (time : ℚ) : String :=
  if time < 1 / 1000000 then print_it (time * 1000000000) "ns"
  else if time < 1 / 1000 then print_it (time * 1000000) "us"
  else if time < 1 then print_it (time * 1000) "ms"
  else print_it (time) "s"

/-- Embedding of the static member Timer::Simple. -/
def Simple (title time : String) : String :=
  title ++ ": " ++ time

/-- Embedding of the static member Timer::Big: a 41-dash border, the
content line, and the same border again. -/
def Big (title time : String) : String :=
  "-----------------------------------------\n"
    ++ "| " ++ title ++ " | Time = " ++ time ++ "\n"
    ++ "-----------------------------------------"

/-- The dash border used twice by Timer::Big. -/
def dashBorder : String :=
  "-----------------------------------------"

end Timer

/-- State of a CLI::Timer object: the title, the pluggable print
function, and the start_ time point (a clock reading in seconds). -/
structure TimerState where
  title_ : String
  time_print_ : String → String → String
  start_ : ℚ

namespace Timer

/-- Embedding of the zero-argument const overload Timer::make_time_str():
elapsed seconds are the current clock reading minus start_. -/
def make_time_str_now (t : TimerState) (nowv : ℚ) : String :=
  make_time_str (nowv - t.start_)

/-- Embedding of the const member Timer::to_string(): feeds the title
and the formatted elapsed time through the stored print function. -/
def to_string (t : TimerState) (nowv : ℚ) : String :=
  t.time_print_ t.title_ (make_time_str_now t nowv)

/-- Embedding of the do-while loop of Timer::time_it.  The source
counter n starts at 0 and the loop condition is n++ < 100 && total_time
< target_time; here k = 100 - n counts the remaining successful
outcomes of the first conjunct, so k = 0 is the state n = 100 in which
n++ < 100 fails (and the second conjunct is not evaluated).  Arguments
i and calls are the index of the next clock reading and the number of
invocations of f so far.  Each arm first performs the loop body: one
invocation of f (calls + 1) and one clock reading giving total_time =
now i - s.  The result is (total_time, n, calls) at exit, where n is
the source counter after its final post-increment — on exit from state
k it equals 101 - k. -/
def timeItLoop (now : ℕ → ℚ) (s target_time : ℚ) :
    ℕ → ℕ → ℕ → ℚ × ℕ × ℕ
  | 0, i, calls => (now i - s, 101, calls + 1)
  | k + 1, i, calls =>
      let total_time := now i - s
      if total_time < target_time then
        timeItLoop now s target_time k (i + 1) (calls + 1)
      else
        (total_time, 101 - (k + 1), calls + 1)

/-- Embedding of Timer::time_it: saves start_, overwrites it with a
fresh clock reading (now 0), runs the do-while loop, builds the output
string from total_time / n and n, and restores the saved start_ before
returning.  Returns the string together with the final object state. -/
def time_it (t : TimerState) (now : ℕ → ℚ) (target_time : ℚ) :
    String × TimerState :=
  let start := t.start_
  let t' := { t with start_ := now 0 }
  let r := timeItLoop now t'.start_ target_time 100 1 0
  let n := r.2.1
  let out := make_time_str (r.1 / (n : ℚ)) ++ " for " ++ toString n ++ " tries"
  (out, { t' with start_ := start })

/-- Number of times time_it invokes the caller-supplied operation f for
a given clock trace and target time (the calls component of the loop). -/
def time_it_invocations (now : ℕ → ℚ) (target_time : ℚ) : ℕ :=
  (timeItLoop now (now 0) target_time 100 1 0).2.2

end Timer

/-- Model of writing a string to a std::ostream: the stream is the
sequence of characters written so far, and insertion appends. -/
def ostream_write (buf s : String) : String :=
  buf ++ s

/-- Embedding of operator<<(std::ostream&, const CLI::Timer&): inserts
timer.to_string() into the stream. -/
def ostream_insert_timer (buf : String) (t : TimerState) (nowv : ℚ) : String :=
  ostream_write buf (Timer.to_string t nowv)

namespace Timer

/-- Bookkeeping for the loop: on exit, the source counter n (after its
final post-increment) and the number of invocations of f agree up to
the initial values: n + calls0 + k0 = calls + 100.  With the initial
values k0 = 100, calls0 = 0 of time_it this says n = calls. -/
theorem timeItLoop_count_eq (now : ℕ → ℚ) (s target_time : ℚ) :
    ∀ k, k ≤ 100 → ∀ i calls,
      (timeItLoop now s target_time k i calls).2.1 + calls + k
        = (timeItLoop now s target_time k i calls).2.2 + 100 := by
  intro k
  induction k with
  | zero =>
    intro _ i calls
    simp [timeItLoop]
    omega
  | succ k ih =>
    intro hk i calls
    simp only [timeItLoop]
    split
    · have h := ih (by omega) (i + 1) (calls + 1)
      omega
    · simp only []
      omega

/-- The loop performs at most k + 1 further invocations of f. -/
theorem timeItLoop_calls_le (now : ℕ → ℚ) (s target_time : ℚ) :
    ∀ k i calls,
      (timeItLoop now s target_time k i calls).2.2 ≤ calls + k + 1 := by
  intro k
  induction k with
  | zero =>
    intro i calls
    simp [timeItLoop]
  | succ k ih =>
    intro i calls
    simp only [timeItLoop]
    split
    · have h := ih (i + 1) (calls + 1)
      omega
    · simp only []
      omega

/-- The loop body runs at least once (a do-while loop). -/
theorem timeItLoop_calls_pos (now : ℕ → ℚ) (s target_time : ℚ) :
    ∀ k i calls,
      calls + 1 ≤ (timeItLoop now s target_time k i calls).2.2 := by
  intro k
  induction k with
  | zero =>
    intro i calls
    simp [timeItLoop]
  | succ k ih =>
    intro i calls
    simp only [timeItLoop]
    split
    · have h := ih (i + 1) (calls + 1)
      omega
    · simp only []
      omega

/-- Unfolding step of the loop in a continuing state (n < 100). -/
theorem timeItLoop_succ (now : ℕ → ℚ) (s target_time : ℚ) (k i calls : ℕ) :
    timeItLoop now s target_time (k + 1) i calls
      = if now i - s < target_time then
          timeItLoop now s target_time k (i + 1) (calls + 1)
        else
          (now i - s, 101 - (k + 1), calls + 1) :=
  rfl

/-- C1: make_time_str(double) scales a nonnegative duration d into the
unit chosen by the threshold cascade and renders the scaled value with
5 significant digits followed by a space and the unit: d * 1e9 and
" ns" when d < 1e-6, d * 1e6 and " us" when 1e-6 ≤ d < 1e-3, d * 1e3
and " ms" when 1e-3 ≤ d < 1, and d itself and " s" when d ≥ 1. -/
theorem make_time_str_unit_selection (d : ℚ) (h0 : 0 ≤ d) :
    (d < 1 / 1000000 → make_time_str d = fmt5 (d * 1000000000) ++ " ns") ∧
    (1 / 1000000 ≤ d → d < 1 / 1000 →
      make_time_str d = fmt5 (d * 1000000) ++ " us") ∧
    (1 / 1000 ≤ d → d < 1 → make_time_str d = fmt5 (d * 1000) ++ " ms") ∧
    (1 ≤ d → make_time_str d = fmt5 d ++ " s") := by
  unfold make_time_str print_it
  refine ⟨fun h1 => ?_, fun h1 h2 => ?_, fun h1 h2 => ?_, fun h1 => ?_⟩ <;>
    rw [String.append_assoc, String.append_assoc, String.append_assoc,
      String.append_assoc] <;>
    split_ifs <;> first | rfl | linarith

/-- Witness for C1 at the concrete input d = 5/2 (the seconds branch). -/
theorem make_time_str_unit_selection_witness :
    0 ≤ (5 / 2 : ℚ) ∧ make_time_str (5 / 2) = fmt5 (5 / 2) ++ " s" :=
  ⟨by norm_num,
    (make_time_str_unit_selection (5 / 2) (by norm_num)).2.2.2 (by norm_num)⟩

/-- C2: at the exact thresholds the strict less-than comparisons reject
the smaller unit: 1e-6 s renders as "1 us" (not ns), 1e-3 s renders as
"1 ms" (not us), and 1 s renders as "1 s" (not ms). -/
theorem make_time_str_boundary_units :
    make_time_str (1 / 1000000) = "1 us" ∧
    make_time_str (1 / 1000) = "1 ms" ∧
    make_time_str 1 = "1 s" := by
  refine ⟨?_, ?_, ?_⟩ <;> with_unfolding_all rfl

/-- Counterexample to C3: with a clock that never advances (so the
target is never reached) and target 1, time_it invokes the operation
101 times, not at most 100: the post-increment in the loop condition
n++ < 100 allows one extra body execution. -/
theorem time_it_invocations_exceed_hundred :
    time_it_invocations (fun _ => (0 : ℚ)) 1 = 101 ∧
    ¬ time_it_invocations (fun _ => (0 : ℚ)) 1 ≤ 100 := by
  have e : time_it_invocations (fun _ => (0 : ℚ)) 1 = 101 := by
    with_unfolding_all rfl
  refine ⟨e, ?_⟩
  rw [e]
  omega

/-- C3 as amended: time_it invokes the operation at most 101 times for
every clock trace and target, and it stops as soon as the first
elapsed-time reading reaches the target (one single invocation when
the first loop iteration already meets it). -/
theorem time_it_invocation_bound :
    (∀ (now : ℕ → ℚ) (target_time : ℚ),
      time_it_invocations now target_time ≤ 101) ∧
    (∀ (now : ℕ → ℚ) (target_time : ℚ), target_time ≤ now 1 - now 0 →
      time_it_invocations now target_time = 1) := by
  constructor
  · intro now target_time
    have h := timeItLoop_calls_le now (now 0) target_time 100 1 0
    unfold time_it_invocations
    omega
  · intro now target_time h
    have e : (100 : ℕ) = 99 + 1 := rfl
    unfold time_it_invocations
    rw [e, timeItLoop_succ, if_neg (not_lt.mpr h)]

/-- Witness for C3 as amended: with the clock now i = i and target 1,
the first reading already meets the target and exactly one invocation
happens. -/
theorem time_it_invocation_bound_witness :
    (1 : ℚ) ≤ (fun i => (i : ℚ)) 1 - (fun i => (i : ℚ)) 0 ∧
    time_it_invocations (fun i => (i : ℚ)) 1 = 1 :=
  ⟨by norm_num, time_it_invocation_bound.2 (fun i => (i : ℚ)) 1 (by norm_num)⟩

/-- C4: time_it invokes the caller-supplied operation at least once for
every clock trace and every target, the loop being do-while; this
includes every target ≤ 0 since target_time ranges over all of ℚ. -/
theorem time_it_invokes_at_least_once (now : ℕ → ℚ) (target_time : ℚ) :
    1 ≤ time_it_invocations now target_time := by
  have h := timeItLoop_calls_pos now (now 0) target_time 100 1 0
  unfold time_it_invocations
  omega

/-- C5: time_it restores the saved start_ before returning, so the
final object state (start_ included, hence the baseline of any later
to_string) is exactly the state from before the call; the remaining
members, being const, are embedded as pure functions and cannot touch
start_ at all. -/
theorem time_it_preserves_start (t : TimerState) (now : ℕ → ℚ)
    (target_time : ℚ) :
    (time_it t now target_time).2.start_ = t.start_ ∧
    (time_it t now target_time).2 = t :=
  ⟨rfl, rfl⟩

/-- C6: the string returned by time_it is the duration formatter applied
to total elapsed time divided by the invocation count, followed by
" for ", the decimal invocation count, and " tries"; in particular the
count n printed by the source equals the number of times f ran. -/
theorem time_it_output_format (t : TimerState) (now : ℕ → ℚ)
    (target_time : ℚ) :
    (time_it t now target_time).1 =
      make_time_str ((timeItLoop now (now 0) target_time 100 1 0).1 /
          (time_it_invocations now target_time : ℚ)) ++ " for "
        ++ toString (time_it_invocations now target_time) ++ " tries" := by
  have h := timeItLoop_count_eq now (now 0) target_time 100 (by omega) 1 0
  have e : (timeItLoop now (now 0) target_time 100 1 0).2.1
      = (timeItLoop now (now 0) target_time 100 1 0).2.2 := by omega
  show make_time_str ((timeItLoop now (now 0) target_time 100 1 0).1 /
      ((timeItLoop now (now 0) target_time 100 1 0).2.1 : ℚ)) ++ " for "
      ++ toString (timeItLoop now (now 0) target_time 100 1 0).2.1
      ++ " tries" = _
  rw [e]
  rfl

/-- C7: inserting a Timer into an output stream writes exactly the
characters of to_string: the stream afterwards is the old contents
followed by to_string, and insertion into an empty stream produces
to_string verbatim. -/
theorem stream_insertion_matches_to_string (buf : String) (t : TimerState)
    (nowv : ℚ) :
    ostream_insert_timer buf t nowv = buf ++ to_string t nowv ∧
    ostream_insert_timer "" t nowv = to_string t nowv :=
  ⟨rfl, rfl⟩

/-- C8: the Simple formatter joins label and time with ": ", and a
Timer labelled "X" using Simple whose elapsed time measures exactly
5/2 seconds renders as "X: 2.5 s". -/
theorem simple_format_render (L T : String) :
    Simple L T = L ++ ": " ++ T ∧
    ∀ s : ℚ, to_string ⟨"X", Simple, s⟩ (s + 5 / 2) = "X: 2.5 s" := by
  constructor
  · rfl
  · intro s
    show Simple "X" (make_time_str (s + 5 / 2 - s)) = "X: 2.5 s"
    have e : s + 5 / 2 - s = (5 / 2 : ℚ) := by ring
    rw [e]
    with_unfolding_all rfl

/-- C9: the Big formatter produces the 41-character dash border, a
newline, the content line with the label and the time, a newline, and
the identical border again; the border consists of 41 dash characters.
-/
theorem big_format_banner (L T : String) :
    Big L T = dashBorder ++ "\n" ++ "| " ++ L ++ " | Time = " ++ T
        ++ "\n" ++ dashBorder ∧
    dashBorder.length = 41 ∧
    dashBorder.toList = List.replicate 41 '-' := by
  refine ⟨rfl, by decide, by decide⟩

/-- C10: make_time_str is defined for every rational input and any
d < 1e-6 — negative durations included — takes the nanoseconds branch,
rendering d * 1e9 with 5 significant digits followed by " ns"; nothing
rejects or clamps negative values. -/
theorem make_time_str_negative_ns (d : ℚ) (h : d < 1 / 1000000) :
    make_time_str d = fmt5 (d * 1000000000) ++ " ns" := by
  unfold make_time_str print_it
  rw [if_pos h, String.append_assoc]
  with_unfolding_all rfl

/-- Witness for C10 at the concrete negative input d = -5. -/
theorem make_time_str_negative_ns_witness :
    (-5 : ℚ) < 1 / 1000000 ∧
    make_time_str (-5) = fmt5 ((-5) * 1000000000) ++ " ns" :=
  ⟨by norm_num, make_time_str_negative_ns (-5) (by norm_num)⟩

end Timer

end CLI
